import Mathlib

/-!
Verification of the paginated, session-authenticated ZenTao client layer.

A shallow embedding of the `mcp_zentao` client core:

* `src/mcp_zentao/client/base_client.py` — HTTP request/parse layer,
  `get_paginated`, `get_all_pages`, `_extract_rec_total`;
* `src/mcp_zentao/models/pagination.py` — `PaginationHelper.build_paginated_url`;
* `src/mcp_zentao/models/session.py` — `SessionResponse`, `SessionData`;
* `src/mcp_zentao/client/session_client.py` — `get_session_id`, `logout`;
* `src/mcp_zentao/client/zentao_client.py` — the unified client and its
  session-id synchronisation;
* `src/mcp_zentao/client/task_client.py`, `bug_client.py` — authentication
  guards, `start_task`;
* `src/mcp_zentao/openapi/registry.py` — the endpoint capability table.

The HTTP backend is an oracle `Nat → String → HttpOutcome` (call index and
full URL to outcome), so that theorems can quantify over every backend
behaviour.  Python exceptions are the explicit error type `PyExn`; dynamic
JSON values are the inductive `Json`.  Every definition follows the Python
source line by line; deviations forced by typing are noted in comments.
-/

set_option autoImplicit false

namespace ZenTao

/-- Dynamic JSON value, the shallow embedding of Python objects produced by
`json.loads` (floats do not occur in any verified input and are not
modelled: the parser rejects them). -/
inductive Json where
  | null : Json
  | bool (b : Bool) : Json
  | num (n : Int) : Json
  | str (s : String) : Json
  | arr (xs : List Json) : Json
  | obj (fields : List (String × Json)) : Json

/-- Python `dict` lookup on a parsed object: later duplicate keys overwrite
earlier ones, so the last binding wins. -/
def jsonLookup (k : String) : List (String × Json) → Option Json
  | [] => none
  | (k', v) :: rest =>
      match jsonLookup k rest with
      | some v' => some v'
      | none => if k' = k then some v else none

/-- Python `str()` rendering of a dynamic value, as used by the f-string in
`PaginationHelper.build_paginated_url` (container rendering is never
exercised by a verified input and is abbreviated). -/
def pyStr : Json → String
  | Json.null => "None"
  | Json.bool true => "True"
  | Json.bool false => "False"
  | Json.num n => toString n
  | Json.str s => s
  | Json.arr _ => "[...]"
  | Json.obj _ => "dict"

/-- Python exception values that the client layer can raise.  `zenTaoError`
is the repo's `ZenTaoError(status, message, data)`; the rest are builtins
(pydantic's `ValidationError` included).  `jsonDecodeError` is
`json.JSONDecodeError`. -/
inductive PyExn where
  | zenTaoError (status : String) (message : String) (data : Option Json) : PyExn
  | valueError (msg : String) : PyExn
  | typeError (msg : String) : PyExn
  | zeroDivisionError : PyExn
  | jsonDecodeError : PyExn
  | validationError (msg : String) : PyExn

/-! ## A model of `json.loads`

The Python layer calls `json.loads` on the second-stage `data` strings and on
response bodies.  The parser below implements the JSON grammar that the
verified inputs exercise: objects, arrays, strings with the standard escape
set, integers, `true`/`false`/`null`.  Floats (and `\u` surrogate pairs, and
the leading-zero restriction on numbers) are outside every verified input
and are not modelled — the parser simply rejects a float. -/

/-- JSON insignificant whitespace. -/
def isJsonWs (c : Char) : Bool :=
  c = ' ' || c = Char.ofNat 9 || c = Char.ofNat 10 || c = Char.ofNat 13

/-- Skip insignificant whitespace. -/
def skipWs : List Char → List Char
  | [] => []
  | c :: rest => if isJsonWs c then skipWs rest else c :: rest

/-- Hexadecimal digit value, for `\u` escapes. -/
def hexVal (c : Char) : Option Nat :=
  if c.isDigit then some (c.toNat - 48)
  else if 97 ≤ c.toNat ∧ c.toNat ≤ 102 then some (c.toNat - 87)
  else if 65 ≤ c.toNat ∧ c.toNat ≤ 70 then some (c.toNat - 55)
  else none

/-- The double-quote character. -/
def dq : Char := Char.ofNat 34

/-- The backslash character. -/
def bsl : Char := Char.ofNat 92

/-- The opening-brace character. -/
def obr : Char := Char.ofNat 123

/-- The closing-brace character. -/
def cbr : Char := Char.ofNat 125

/-- Parse the remainder of a JSON string literal (after the opening quote),
returning the decoded characters and the unconsumed input. -/
def parseStringRest : List Char → Option (List Char × List Char)
  | [] => none
  | c :: rest =>
    if c = dq then some ([], rest)
    else if c = bsl then
      match rest with
      | [] => none
      | e :: rest2 =>
        if e = 'u' then
          match rest2 with
          | a :: b :: c2 :: d :: rest3 =>
            match hexVal a, hexVal b, hexVal c2, hexVal d with
            | some ha, some hb, some hc, some hd =>
              match parseStringRest rest3 with
              | some (cs, rem) =>
                  some (Char.ofNat (((ha * 16 + hb) * 16 + hc) * 16 + hd) :: cs, rem)
              | none => none
            | _, _, _, _ => none
          | _ => none
        else
          match
            (if e = dq then some dq
             else if e = bsl then some bsl
             else if e = '/' then some '/'
             else if e = 'b' then some (Char.ofNat 8)
             else if e = 'f' then some (Char.ofNat 12)
             else if e = 'n' then some (Char.ofNat 10)
             else if e = 'r' then some (Char.ofNat 13)
             else if e = 't' then some (Char.ofNat 9)
             else none) with
          | some decoded =>
            match parseStringRest rest2 with
            | some (cs, rem) => some (decoded :: cs, rem)
            | none => none
          | none => none
    else
      match parseStringRest rest with
      | some (cs, rem) => some (c :: cs, rem)
      | none => none

/-- Consume a run of decimal digits, accumulating their value. -/
def takeDigits (acc : Nat) : List Char → Nat × List Char
  | [] => (acc, [])
  | c :: rest =>
      if c.isDigit then takeDigits (acc * 10 + (c.toNat - 48)) rest
      else (acc, c :: rest)

/-- Parse a JSON integer starting at a digit; rejects a following `.`/`e`/`E`
(floats are not modelled). -/
def parseIntRest (s : List Char) : Option (Nat × List Char) :=
  match s with
  | [] => none
  | c :: _ =>
    if c.isDigit then
      match takeDigits 0 s with
      | (n, rest) =>
        match rest with
        | [] => some (n, [])
        | d :: _ =>
          if d = '.' ∨ d = 'e' ∨ d = 'E' then none else some (n, rest)
    else none

mutual

/-- Parse one JSON value (fuel-bounded recursive descent). -/
def parseValue : Nat → List Char → Option (Json × List Char)
  | 0, _ => none
  | fuel + 1, s =>
    match skipWs s with
    | [] => none
    | c :: rest =>
      if c = dq then
        match parseStringRest rest with
        | some (cs, rem) => some (Json.str (String.mk cs), rem)
        | none => none
      else if c = '[' then
        match skipWs rest with
        | [] => none
        | d :: rest2 =>
          if d = ']' then some (Json.arr [], rest2)
          else
            match parseValue fuel (d :: rest2) with
            | some (v, rem) =>
              match parseArrItems fuel rem with
              | some (vs, rem2) => some (Json.arr (v :: vs), rem2)
              | none => none
            | none => none
      else if c = obr then
        match skipWs rest with
        | [] => none
        | d :: rest2 =>
          if d = cbr then some (Json.obj [], rest2)
          else
            match parsePair fuel (d :: rest2) with
            | some (kv, rem) =>
              match parseObjItems fuel rem with
              | some (kvs, rem2) => some (Json.obj (kv :: kvs), rem2)
              | none => none
            | none => none
      else if c = '-' then
        match parseIntRest rest with
        | some (n, rem) => some (Json.num (-(n : Int)), rem)
        | none => none
      else if c.isDigit then
        match parseIntRest (c :: rest) with
        | some (n, rem) => some (Json.num (n : Int), rem)
        | none => none
      else if c = 't' then
        match rest with
        | 'r' :: 'u' :: 'e' :: rem => some (Json.bool true, rem)
        | _ => none
      else if c = 'f' then
        match rest with
        | 'a' :: 'l' :: 's' :: 'e' :: rem => some (Json.bool false, rem)
        | _ => none
      else if c = 'n' then
        match rest with
        | 'u' :: 'l' :: 'l' :: rem => some (Json.null, rem)
        | _ => none
      else none

/-- Parse the items of an array after the first value: `, value`* then `]`. -/
def parseArrItems : Nat → List Char → Option (List Json × List Char)
  | 0, _ => none
  | fuel + 1, s =>
    match skipWs s with
    | [] => none
    | c :: rest =>
      if c = ']' then some ([], rest)
      else if c = ',' then
        match parseValue fuel rest with
        | some (v, rem) =>
          match parseArrItems fuel rem with
          | some (vs, rem2) => some (v :: vs, rem2)
          | none => none
        | none => none
      else none

/-- Parse one `"key": value` member of an object. -/
def parsePair : Nat → List Char → Option ((String × Json) × List Char)
  | 0, _ => none
  | fuel + 1, s =>
    match skipWs s with
    | [] => none
    | c :: rest =>
      if c = dq then
        match parseStringRest rest with
        | some (cs, rem) =>
          match skipWs rem with
          | ':' :: rem2 =>
            match parseValue fuel rem2 with
            | some (v, rem3) => some ((String.mk cs, v), rem3)
            | none => none
          | _ => none
        | none => none
      else none

/-- Parse the members of an object after the first pair: `, pair`* then the
closing brace. -/
def parseObjItems : Nat → List Char → Option (List (String × Json) × List Char)
  | 0, _ => none
  | fuel + 1, s =>
    match skipWs s with
    | [] => none
    | c :: rest =>
      if c = cbr then some ([], rest)
      else if c = ',' then
        match parsePair fuel rest with
        | some (kv, rem) =>
          match parseObjItems fuel rem with
          | some (kvs, rem2) => some (kv :: kvs, rem2)
          | none => none
        | none => none
      else none

end

/-- The model of `json.loads`: parse one value, then require only
whitespace to remain.  `none` models a raised `json.JSONDecodeError`. -/
def jsonParse (s : String) : Option Json :=
  match parseValue (2 * s.length + 8) s.toList with
  | some (v, rest) => if skipWs rest = [] then some v else none
  | none => none

/-! ## Transport layer (`BaseClient._build_url`, `_make_request`)

The backend is an oracle from call index and full URL to an outcome.  Query
parameters (the `params` dict) travel outside the path and are not part of
the recorded address; no claim inspects them.  The recorded `trace` is the
ordered list of request URLs — its length is the number of HTTP requests
issued. -/

/-- Outcome of one HTTP exchange.  `ok` carries the body as parsed by
`response.json()` (`none` = body is not valid JSON) plus any cookies the
response sets; `httpError` is a non-2xx status (`raise_for_status`);
`requestError` is a transport failure (`httpx.RequestError`). -/
inductive HttpOutcome where
  | httpError (code : Nat) (text : String) : HttpOutcome
  | requestError (msg : String) : HttpOutcome
  | ok (body : Option Json) (setCookies : List (String × String)) : HttpOutcome

/-- Mutable state of the shared `httpx.Client`: the request trace and the
cookie jar. -/
structure Http where
  trace : List String
  cookies : List (String × String)

/-- Per-client immutable context: the backend oracle and the (already
`rstrip('/')`-ed) base URL. -/
structure Ctx where
  oracle : Nat → String → HttpOutcome
  baseUrl : String

/-- Store one cookie in the jar, overwriting an existing entry of the same
name. -/
def setCookie (jar : List (String × String)) (kv : String × String) :
    List (String × String) :=
  if jar.any (fun e => e.1 = kv.1) then
    jar.map (fun e => if e.1 = kv.1 then kv else e)
  else jar ++ [kv]

/-- Python `str.replace`, fuel-bounded (non-overlapping, left to right). -/
def replaceChars : Nat → List Char → List Char → List Char → List Char
  | 0, _, _, s => s
  | fuel + 1, pat, rep, s =>
    match s with
    | [] => []
    | c :: rest =>
      if pat ≠ [] ∧ pat.isPrefixOf s then
        rep ++ replaceChars fuel pat rep (s.drop pat.length)
      else c :: replaceChars fuel pat rep rest

/-- Python `str.replace` on strings (empty pattern never occurs: placeholder
patterns always carry braces). -/
def pyReplace (s pat rep : String) : String :=
  if pat = "" then s
  else String.mk (replaceChars s.length pat.toList rep.toList s.toList)

/-- `BaseClient._build_url`: substitute each `\x7bkey\x7d` placeholder with
its value, then prefix the base URL.  The source guards the replace with a
containment test, which is redundant (`replace` of an absent pattern is the
identity). -/
def build_url (baseUrl endpoint : String) (urlParams : List (String × String)) :
    String :=
  baseUrl ++ "/" ++
    urlParams.foldl
      (fun ep kv => pyReplace ep ("\x7b" ++ kv.1 ++ "\x7d") kv.2) endpoint

/-- `BaseClient._make_request` followed by `raise_for_status`: record the
request in the trace, convert transport/HTTP failures to `ZenTaoError`
(message texts abbreviated from the source's formatted Chinese strings). -/
def make_request (ctx : Ctx) (http : Http) (url : String) :
    Http × Except PyExn (Option Json) :=
  match ctx.oracle http.trace.length url with
  | HttpOutcome.httpError code text =>
      ({ http with trace := http.trace ++ [url] },
       Except.error (PyExn.zenTaoError "error"
         ("HTTP error " ++ toString code ++ ": " ++ text) none))
  | HttpOutcome.requestError msg =>
      ({ http with trace := http.trace ++ [url] },
       Except.error (PyExn.zenTaoError "error" ("request error: " ++ msg) none))
  | HttpOutcome.ok body setCookies =>
      ({ trace := http.trace ++ [url],
         cookies := setCookies.foldl setCookie http.cookies },
       Except.ok body)

/-! ## Envelope decoding (`BaseClient._parse_response`) -/

/-- Python falsiness of a JSON value, for the source's `status or "error"`. -/
def pyFalsy : Json → Bool
  | Json.null => true
  | Json.bool b => !b
  | Json.num n => n = 0
  | Json.str s => s = ""
  | Json.arr xs => xs.isEmpty
  | Json.obj fs => fs.isEmpty

/-- The source's `status or "error"` applied to the raw status value
(`none` = key absent, i.e. Python `None`). -/
def statusOrError : Option Json → String
  | none => "error"
  | some v => if pyFalsy v then "error" else pyStr v

/-- The source's `response_data.get('message', '未知错误')`, rendered to the
stored message string. -/
def messageOf (fields : List (String × Json)) : String :=
  match jsonLookup "message" fields with
  | some v => pyStr v
  | none => "unknown error"

/-- The model-independent part of `BaseClient._parse_response`: reject an
unparsable body, a non-dict body, and a non-`success` status, in that
order; on success hand the raw fields to the model validator. -/
def parseEnvelope (body : Option Json) :
    Except PyExn (List (String × Json)) :=
  match body with
  | none =>
      Except.error (PyExn.zenTaoError "error" "JSON parse error" none)
  | some j =>
    match j with
    | Json.obj fields =>
      match jsonLookup "status" fields with
      | some (Json.str "success") => Except.ok fields
      | st =>
          Except.error (PyExn.zenTaoError (statusOrError st) (messageOf fields)
            (jsonLookup "data" fields))
    | _ => Except.error (PyExn.zenTaoError "error" "invalid response format"
            (some j))

/-! ## The task list response model (`models/task.py: TaskListResponse`) -/

/-- `TaskListResponse`: outer fields `status: str` and `data: str` (the
`data` string is itself JSON, decoded on demand). -/
structure TaskListResponse where
  status : String
  data : String

/-- Pydantic validation of `TaskListResponse`: both fields must be present
and be strings; extra keys are ignored. -/
def TaskListResponse.model_validate (fields : List (String × Json)) :
    Except PyExn TaskListResponse :=
  match jsonLookup "status" fields, jsonLookup "data" fields with
  | some (Json.str st), some (Json.str d) => Except.ok ⟨st, d⟩
  | _, _ => Except.error (PyExn.validationError "TaskListResponse")

/-- `_parse_response` instantiated at `TaskListResponse`: a validation
failure is re-raised as `ZenTaoError` by the source's final `except`. -/
def parse_response_task (body : Option Json) : Except PyExn TaskListResponse :=
  match parseEnvelope body with
  | Except.error e => Except.error e
  | Except.ok fields =>
    match TaskListResponse.model_validate fields with
    | Except.ok r => Except.ok r
    | Except.error _ =>
        Except.error (PyExn.zenTaoError "error" "model validation failed"
          (some (Json.obj fields)))

/-- `BaseClient.get` instantiated at `TaskListResponse`. -/
def get_task (ctx : Ctx) (http : Http) (endpoint : String)
    (urlParams : List (String × String)) :
    Http × Except PyExn TaskListResponse :=
  match make_request ctx http (build_url ctx.baseUrl endpoint urlParams) with
  | (http1, Except.error e) => (http1, Except.error e)
  | (http1, Except.ok body) => (http1, parse_response_task body)

/-! ## Pagination (`PaginationHelper`, `get_paginated`, `get_all_pages`) -/

/-- `PaginationHelper.build_paginated_url`.  `rec_total` is the dynamic
value produced by `_extract_rec_total`, rendered by the f-string; the
callers in `base_client.py` leave `operation` at its default
`"assignedTo"`. -/
def build_paginated_url (base_endpoint sort_key : String) (rec_total : Json)
    (rec_per_page page_id : Int) (operation : String) : String :=
  base_endpoint ++ "-" ++ operation ++ "-" ++ sort_key ++ "-" ++
    pyStr rec_total ++ "-" ++ toString rec_per_page ++ "-" ++
    toString page_id ++ ".json"

/-- `BaseClient._extract_rec_total`, task branch (`TaskListResponse` has
`get_task_list_data`, so the first `hasattr` test fires):
`json.loads(self.data).get('recTotal', 0)` under a catch-all `try` — a
parse failure or a non-dict result returns the default `0`. -/
def extract_rec_total (r : TaskListResponse) : Json :=
  match jsonParse r.data with
  | some (Json.obj fields) =>
    match jsonLookup "recTotal" fields with
    | some v => v
    | none => Json.num 0
  | _ => Json.num 0

/-- `BaseClient.get_paginated` at `TaskListResponse`: page 1 is the bare
endpoint; any later page first re-fetches page 1 to learn the record
total, then issues the count-addressed request. -/
def get_paginated (ctx : Ctx) (http : Http) (base_endpoint : String)
    (page per_page : Int) (sort_key : String) :
    Http × Except PyExn TaskListResponse :=
  if page = 1 then
    get_task ctx http (base_endpoint ++ ".json") []
  else
    match get_task ctx http (base_endpoint ++ ".json") [] with
    | (http1, Except.error e) => (http1, Except.error e)
    | (http1, Except.ok first) =>
      get_task ctx http1
        (build_paginated_url base_endpoint sort_key (extract_rec_total first)
          per_page page "assignedTo") []

/-- The arithmetic `(rec_total + per_page - 1) // per_page` of
`get_all_pages` on the dynamic `rec_total` (Python `//` is floor division;
a non-numeric total raises `TypeError`, a zero divisor
`ZeroDivisionError`; `bool` participates in `int` arithmetic). -/
def total_pages_of (rec_total : Json) (per_page : Int) : Except PyExn Int :=
  match rec_total with
  | Json.num n =>
      if per_page = 0 then Except.error PyExn.zeroDivisionError
      else Except.ok (Int.fdiv (n + per_page - 1) per_page)
  | Json.bool b =>
      if per_page = 0 then Except.error PyExn.zeroDivisionError
      else Except.ok (Int.fdiv ((if b then 1 else 0) + per_page - 1) per_page)
  | _ => Except.error (PyExn.typeError "unsupported operand type for +")

/-- The `for page in range(2, total_pages + 1)` loop of `get_all_pages`:
each successful page is appended; the first failure is swallowed (the
source prints it) and breaks the loop. -/
def fetch_pages_loop (ctx : Ctx) (base_endpoint : String) (per_page : Int)
    (sort_key : String) :
    List Int → Http → List TaskListResponse → Http × List TaskListResponse
  | [], http, results => (http, results)
  | page :: rest, http, results =>
    match get_paginated ctx http base_endpoint page per_page sort_key with
    | (http1, Except.ok r) =>
        fetch_pages_loop ctx base_endpoint per_page sort_key rest http1
          (results ++ [r])
    | (http1, Except.error _) => (http1, results)

/-- The `if max_pages: total_pages = min(total_pages, max_pages)` step of
`get_all_pages`: the cap applies only when `max_pages` is truthy, so
`some 0` behaves like `none`. -/
def capped_total_pages (tp0 : Int) (max_pages : Option Int) : Int :=
  match max_pages with
  | some m => if m ≠ 0 then min tp0 m else tp0
  | none => tp0

/-- The page numbers traversed by `for page in range(2, total_pages + 1)`. -/
def pages_range (tp : Int) : List Int :=
  (List.range (tp - 1).toNat).map (fun (i : Nat) => (i : Int) + 2)

/-- `BaseClient.get_all_pages` at `TaskListResponse`: fetch page 1, derive
the page count from its record total, cap it, fetch the remaining pages,
and return the accumulated page responses. -/
def get_all_pages (ctx : Ctx) (http : Http) (base_endpoint : String)
    (per_page : Int) (sort_key : String) (max_pages : Option Int) :
    Http × Except PyExn (List TaskListResponse) :=
  match get_paginated ctx http base_endpoint 1 per_page sort_key with
  | (http1, Except.error e) => (http1, Except.error e)
  | (http1, Except.ok first) =>
    match total_pages_of (extract_rec_total first) per_page with
    | Except.error e => (http1, Except.error e)
    | Except.ok tp0 =>
      match fetch_pages_loop ctx base_endpoint per_page sort_key
          (pages_range (capped_total_pages tp0 max_pages)) http1 [first] with
      | (http2, results) => (http2, Except.ok results)

/-! ## Session models (`models/session.py`) -/

/-- Python `str.strip()` whitespace (ASCII subset; no verified input
carries other Unicode whitespace). -/
def isPyWs (c : Char) : Bool :=
  c = ' ' || c = Char.ofNat 9 || c = Char.ofNat 10 || c = Char.ofNat 13 ||
  c = Char.ofNat 11 || c = Char.ofNat 12

/-- Python `str.strip()`. -/
def pyStrip (s : String) : String :=
  String.mk (((s.toList.dropWhile isPyWs).reverse.dropWhile isPyWs).reverse)

/-- Pydantic lax coercion to `int`: an `int` passes, a decimal-digit string
is coerced, `bool`/others are rejected (v2 semantics). -/
def pydanticInt : Json → Option Int
  | Json.num n => some n
  | Json.str s =>
    match s.toList with
    | [] => none
    | '-' :: rest =>
        if rest ≠ [] ∧ rest.all Char.isDigit then
          some (-((takeDigits 0 rest).1 : Int))
        else none
    | l => if l.all Char.isDigit then some ((takeDigits 0 l).1 : Int) else none
  | _ => none

/-- Validation outcome of an `Optional[str]` pydantic field: absent uses
the default, `null` maps to `None`, a string passes, anything else fails. -/
def pydanticOptStr (v : Option Json) (dflt : Option String) :
    Except PyExn (Option String) :=
  match v with
  | none => Except.ok dflt
  | some Json.null => Except.ok none
  | some (Json.str s) => Except.ok (some s)
  | some _ => Except.error (PyExn.validationError "str expected")

/-- `SessionData` (the second-stage payload of the session bootstrap):
`sessionName`/`sessionID` required strings, `rand` required int, `title`
optional with default `""`, `pager` optional with default `None`. -/
structure SessionData where
  title : Option String
  sessionName : String
  sessionID : String
  rand : Int
  pager : Option String

/-- `SessionData.validate_session_id`: reject an empty or
whitespace-only id and an id shorter than 10 characters (the length test
runs on the unstripped value), then store the stripped id. -/
def validate_session_id (v : String) : Except PyExn String :=
  if v = "" ∨ pyStrip v = "" then
    Except.error (PyExn.valueError "session id must not be empty")
  else if v.length < 10 then
    Except.error (PyExn.valueError "session id too short")
  else Except.ok (pyStrip v)

/-- Pydantic validation of `SessionData` from a decoded JSON value. -/
def SessionData.model_validate (j : Json) : Except PyExn SessionData :=
  match j with
  | Json.obj fields =>
    (match jsonLookup "sessionName" fields, jsonLookup "sessionID" fields,
        jsonLookup "rand" fields with
     | some (Json.str nm), some (Json.str sidRaw), some randV =>
       (match pydanticInt randV with
        | none => Except.error (PyExn.validationError "rand: int expected")
        | some rand =>
          (match validate_session_id sidRaw with
           | Except.error _ =>
               Except.error (PyExn.validationError "sessionID rejected")
           | Except.ok sid =>
             (match pydanticOptStr (jsonLookup "title" fields) (some ""),
                 pydanticOptStr (jsonLookup "pager" fields) none with
              | Except.ok title, Except.ok pager =>
                  Except.ok ⟨title, nm, sid, rand, pager⟩
              | _, _ => Except.error (PyExn.validationError "SessionData"))))
     | _, _, _ => Except.error (PyExn.validationError "SessionData"))
  | _ => Except.error (PyExn.validationError "SessionData: dict expected")

/-- `SessionResponse` (a `StringDataResponse`): `status` restricted to the
`ResponseStatus` enum, optional `message`, and the raw `data` string that
needs the second-stage decode. -/
structure SessionResponse where
  status : String
  message : Option String
  data : String

/-- Pydantic validation of `SessionResponse` from the envelope fields. -/
def SessionResponse.model_validate (fields : List (String × Json)) :
    Except PyExn SessionResponse :=
  match jsonLookup "status" fields, jsonLookup "data" fields with
  | some (Json.str st), some (Json.str d) =>
    if st = "success" ∨ st = "failed" ∨ st = "error" then
      match pydanticOptStr (jsonLookup "message" fields) none with
      | Except.ok msg => Except.ok ⟨st, msg, d⟩
      | Except.error e => Except.error e
    else Except.error (PyExn.validationError "ResponseStatus")
  | _, _ => Except.error (PyExn.validationError "SessionResponse")

/-- `SessionResponse.get_session_data`: the second-stage decode —
`json.loads` of the `data` string, then `SessionData` validation.  Errors
here are *not* wrapped (they escape `get_session_id` directly). -/
def SessionResponse.get_session_data (r : SessionResponse) :
    Except PyExn SessionData :=
  match jsonParse r.data with
  | none => Except.error PyExn.jsonDecodeError
  | some j => SessionData.model_validate j

/-- `LogoutResponse` (the module's final redefinition): just the status. -/
structure LogoutResponse where
  status : String

/-- Pydantic validation of `LogoutResponse`. -/
def LogoutResponse.model_validate (fields : List (String × Json)) :
    Except PyExn LogoutResponse :=
  match jsonLookup "status" fields with
  | some (Json.str st) =>
    if st = "success" ∨ st = "failed" ∨ st = "error" then Except.ok ⟨st⟩
    else Except.error (PyExn.validationError "ResponseStatus")
  | _ => Except.error (PyExn.validationError "LogoutResponse")

/-- `BaseClient.get` instantiated at `SessionResponse`. -/
def get_session_resp (ctx : Ctx) (http : Http) (endpoint : String)
    (urlParams : List (String × String)) :
    Http × Except PyExn SessionResponse :=
  match make_request ctx http (build_url ctx.baseUrl endpoint urlParams) with
  | (http1, Except.error e) => (http1, Except.error e)
  | (http1, Except.ok body) =>
    (http1,
      match parseEnvelope body with
      | Except.error e => Except.error e
      | Except.ok fields =>
        match SessionResponse.model_validate fields with
        | Except.ok r => Except.ok r
        | Except.error _ =>
            Except.error (PyExn.zenTaoError "error" "model validation failed"
              (some (Json.obj fields))))

/-- `BaseClient.get` instantiated at `LogoutResponse`. -/
def get_logout_resp (ctx : Ctx) (http : Http) (endpoint : String)
    (urlParams : List (String × String)) :
    Http × Except PyExn LogoutResponse :=
  match make_request ctx http (build_url ctx.baseUrl endpoint urlParams) with
  | (http1, Except.error e) => (http1, Except.error e)
  | (http1, Except.ok body) =>
    (http1,
      match parseEnvelope body with
      | Except.error e => Except.error e
      | Except.ok fields =>
        match LogoutResponse.model_validate fields with
        | Except.ok r => Except.ok r
        | Except.error _ =>
            Except.error (PyExn.zenTaoError "error" "model validation failed"
              (some (Json.obj fields))))

/-! ## Session client (`client/session_client.py`)

A `SessionClient` owns `_session_id : Option String` and shares the
transport state; its operations thread both explicitly. -/

/-- `SessionClient.get_session_id`: fetch the bootstrap envelope, run the
second-stage decode, store and return the session id.  On any failure the
stored id is left unchanged (the assignment happens after extraction). -/
def session_get_session_id (ctx : Ctx) (sid : Option String) (http : Http) :
    (Option String × Http) × Except PyExn String :=
  match get_session_resp ctx http "api-getSessionID.json" [] with
  | (http1, Except.error e) => ((sid, http1), Except.error e)
  | (http1, Except.ok resp) =>
    match resp.get_session_data with
    | Except.error e => ((sid, http1), Except.error e)
    | Except.ok sd => ((some sd.sessionID, http1), Except.ok sd.sessionID)

/-- `SessionClient.logout`: a falsy session id returns `True` at once with
no request; otherwise issue the logout request, clear the local id on
success *and* on failure, and return the success indicator — every
exception is caught (`except Exception`), so `logout` never raises. -/
def session_logout (ctx : Ctx) (sid : Option String) (http : Http) :
    (Option String × Http) × Bool :=
  match sid with
  | none => ((none, http), true)
  | some s =>
    if s = "" then ((some s, http), true)
    else
      match get_logout_resp ctx http "user-logout-\x7bsessionid\x7d.json"
          [("sessionid", s)] with
      | (http1, Except.ok resp) => ((none, http1), resp.status = "success")
      | (http1, Except.error _) => ((none, http1), false)

/-- Pydantic construction of `LoginRequest(account, password)`:
`account` has `min_length=1` plus a strip/non-blank validator (whose
`ValueError` surfaces as a `ValidationError`), `password` has
`min_length=1`; the validator stores the stripped account. -/
def LoginRequest.validate (account password : String) :
    Except PyExn (String × String) :=
  if account = "" then Except.error (PyExn.validationError "account")
  else if pyStrip account = "" then
    Except.error (PyExn.validationError "account blank")
  else if password = "" then Except.error (PyExn.validationError "password")
  else Except.ok (pyStrip account, password)

/-- `LoginResponse` (`models/session.py`): status, optional message, and
the optional raw `user` dict (kept as raw JSON; its fields are consumed
only by `UserModel`). -/
structure LoginResponse where
  status : String
  message : Option String
  user : Option Json

/-- Pydantic validation of `LoginResponse`: `user` is `Optional[Dict]`,
so when present it must be a dict or `null`. -/
def LoginResponse.model_validate (fields : List (String × Json)) :
    Except PyExn LoginResponse :=
  match jsonLookup "status" fields with
  | some (Json.str st) =>
    if st = "success" ∨ st = "failed" ∨ st = "error" then
      match pydanticOptStr (jsonLookup "message" fields) none with
      | Except.error e => Except.error e
      | Except.ok msg =>
        match jsonLookup "user" fields with
        | none => Except.ok ⟨st, msg, none⟩
        | some Json.null => Except.ok ⟨st, msg, none⟩
        | some (Json.obj u) => Except.ok ⟨st, msg, some (Json.obj u)⟩
        | some _ => Except.error (PyExn.validationError "user: dict expected")
    else Except.error (PyExn.validationError "ResponseStatus")
  | _ => Except.error (PyExn.validationError "LoginResponse")

/-- `BaseClient.get` instantiated at `LoginResponse`. -/
def get_login_resp (ctx : Ctx) (http : Http) (endpoint : String)
    (urlParams : List (String × String)) :
    Http × Except PyExn LoginResponse :=
  match make_request ctx http (build_url ctx.baseUrl endpoint urlParams) with
  | (http1, Except.error e) => (http1, Except.error e)
  | (http1, Except.ok body) =>
    (http1,
      match parseEnvelope body with
      | Except.error e => Except.error e
      | Except.ok fields =>
        match LoginResponse.model_validate fields with
        | Except.ok r => Except.ok r
        | Except.error _ =>
            Except.error (PyExn.zenTaoError "error" "model validation failed"
              (some (Json.obj fields))))

/-- `UserModel.model_validate(user_data)` as used by `login`: `None` (a
missing `user` field) is rejected, a dict passes and is kept as raw JSON
(the per-field validation of `UserModel`'s many business fields is beyond
what any session-state property reads and is abstracted away — it can
only turn further successes into failures, never the reverse). -/
def UserModel.model_validate (v : Option Json) : Except PyExn Json :=
  match v with
  | some (Json.obj fields) => Except.ok (Json.obj fields)
  | _ => Except.error (PyExn.validationError "UserModel")

/-- Python `str()` of the stored session id, for the `sessionid` path
parameter (`str(None)` renders as `"None"`; unreachable after the
ensure-session step succeeds). -/
def pyStrOptStr : Option String → String
  | some s => s
  | none => "None"

/-- `SessionClient.login`: ensure a session id exists (the falsy guard
re-acquires on `None` *or* empty), build the validated login request,
issue the `user-login` request (credentials travel as query parameters,
outside the recorded address), and convert the returned `user` dict; each
stage's exception propagates, and a failure after the ensure-session step
keeps the freshly stored id.  The result is the validated user (the
source wraps it in `UserDetailResponse(status="success", ...)`). -/
def session_login (ctx : Ctx) (sid : Option String) (http : Http)
    (username password : String) :
    (Option String × Http) × Except PyExn Json :=
  match
    (match sid with
     | none => session_get_session_id ctx sid http
     | some s =>
       if s = "" then session_get_session_id ctx sid http
       else ((sid, http), Except.ok s)) with
  | ((sid1, http1), Except.error e) => ((sid1, http1), Except.error e)
  | ((sid1, http1), Except.ok _) =>
    match LoginRequest.validate username password with
    | Except.error e => ((sid1, http1), Except.error e)
    | Except.ok _ =>
      match get_login_resp ctx http1 "user-login-\x7bsessionid\x7d.json"
          [("sessionid", pyStrOptStr sid1)] with
      | (http2, Except.error e) => ((sid1, http2), Except.error e)
      | (http2, Except.ok resp) =>
        match UserModel.model_validate resp.user with
        | Except.error e => ((sid1, http2), Except.error e)
        | Except.ok user => ((sid1, http2), Except.ok user)

/-- `SessionClient.is_logged_in`: the stored id is not `None`. -/
def session_is_logged_in (sid : Option String) : Bool :=
  sid.isSome

/-! ## Unified client (`client/zentao_client.py`)

`ZenTaoClient` composes one shared `httpx.Client` (here the single `Http`
state) with five sub-clients, each of which keeps its *own*
`_session_id` field. -/

/-- The mutable state of a `ZenTaoClient` after `__init__`: one shared
transport, five per-façade session-id fields, and the cached current
user. -/
structure ZenTaoState where
  http : Http
  sessionSid : Option String
  userSid : Option String
  projectSid : Option String
  taskSid : Option String
  bugSid : Option String
  currentUser : Option Json

/-- The state `ZenTaoClient.__init__` establishes: fresh transport, every
sub-client's session id `None`, no current user. -/
def zentao_init : ZenTaoState :=
  { http := { trace := [], cookies := [] }, sessionSid := none,
    userSid := none, projectSid := none, taskSid := none, bugSid := none,
    currentUser := none }

/-- `ZenTaoClient._sync_session_id_to_clients`: copy the session client's
id into the other four façades. -/
def sync_session_id_to_clients (st : ZenTaoState) : ZenTaoState :=
  { st with
    userSid := st.sessionSid
    projectSid := st.sessionSid
    taskSid := st.sessionSid
    bugSid := st.sessionSid }

/-- `ZenTaoClient.get_session_id`: delegate to the session client, then
propagate the id to every façade.  On failure the exception escapes before
the sync runs. -/
def zentao_get_session_id (ctx : Ctx) (st : ZenTaoState) :
    ZenTaoState × Except PyExn String :=
  match session_get_session_id ctx st.sessionSid st.http with
  | ((sid', http'), Except.error e) =>
      ({ st with sessionSid := sid', http := http' }, Except.error e)
  | ((sid', http'), Except.ok t) =>
      (sync_session_id_to_clients { st with sessionSid := sid', http := http' },
       Except.ok t)

/-- `ZenTaoClient.login`: delegate to the session client (whose inner
`get_session_id` mutation survives even a later login failure, matching
the source's exception flow), then propagate the id to every façade and
cache the returned user.  On failure the exception escapes before the
sync runs. -/
def zentao_login (ctx : Ctx) (st : ZenTaoState) (username password : String) :
    ZenTaoState × Except PyExn Json :=
  match session_login ctx st.sessionSid st.http username password with
  | ((sid', http'), Except.error e) =>
      ({ st with sessionSid := sid', http := http' }, Except.error e)
  | ((sid', http'), Except.ok user) =>
      ({ sync_session_id_to_clients
          { st with sessionSid := sid', http := http' } with
        currentUser := some user }, Except.ok user)

/-- `ZenTaoClient.logout`: best-effort logout through the session client,
re-sync the (now cleared) id to every façade, drop the current user, and
clear the shared cookie jar; the sub-client's boolean is returned. -/
def zentao_logout (ctx : Ctx) (st : ZenTaoState) : ZenTaoState × Bool :=
  match session_logout ctx st.sessionSid st.http with
  | ((sid', http'), result) =>
    let st1 := sync_session_id_to_clients
      { st with sessionSid := sid', http := http' }
    ({ st1 with
        currentUser := none
        http := { st1.http with cookies := [] } }, result)

/-- `ZenTaoClient.is_logged_in`: a non-empty `zentaosid` cookie exists in
the shared jar. -/
def zentao_is_logged_in (st : ZenTaoState) : Bool :=
  st.http.cookies.any (fun c => c.1 = "zentaosid" && c.2 ≠ "")

/-! ## Resource clients (`client/task_client.py`, `client/bug_client.py`)

Every operation first checks `if not self.session_id` — a `None` *or
empty* id — and raises `ValueError` before touching the transport. -/

/-- `TaskListResponse.get_task_list` as used by `get_my_tasks`: second
decode of `data`, then `TaskListData` validation (`tasks` list and `users`
dict are required; the per-task field validation of `TaskModel` is beyond
what any list-level property needs and the items are kept as raw JSON). -/
def get_task_list (r : TaskListResponse) : Except PyExn Json :=
  match jsonParse r.data with
  | none => Except.error PyExn.jsonDecodeError
  | some (Json.obj fields) =>
    match jsonLookup "tasks" fields, jsonLookup "users" fields with
    | some (Json.arr ts), some (Json.obj _) => Except.ok (Json.arr ts)
    | _, _ => Except.error (PyExn.validationError "TaskListData")
  | some _ => Except.error (PyExn.validationError "TaskListData")

/-- `TaskClient.get_my_tasks`: authentication guard (a `ValueError`, with
no request issued), then the paginated fetch of `my-task` and the list
extraction.  The `status` filter travels as a query parameter and is not
part of the recorded address. -/
def get_my_tasks (ctx : Ctx) (sid : Option String) (http : Http)
    (page per_page : Int) (sort_key : String) :
    Http × Except PyExn Json :=
  match sid with
  | none => (http, Except.error (PyExn.valueError "login required for task list"))
  | some s =>
    if s = "" then
      (http, Except.error (PyExn.valueError "login required for task list"))
    else
      match get_paginated ctx http "my-task" page per_page sort_key with
      | (http1, Except.error e) => (http1, Except.error e)
      | (http1, Except.ok r) => (http1, get_task_list r)

/-- `BugListResponse` (`models/bug.py`): same outer shape as the task
list — `status: str`, `data: str`. -/
structure BugListResponse where
  status : String
  data : String

/-- Pydantic validation of `BugListResponse`. -/
def BugListResponse.model_validate (fields : List (String × Json)) :
    Except PyExn BugListResponse :=
  match jsonLookup "status" fields, jsonLookup "data" fields with
  | some (Json.str st), some (Json.str d) => Except.ok ⟨st, d⟩
  | _, _ => Except.error (PyExn.validationError "BugListResponse")

/-- `BaseClient.get` instantiated at `BugListResponse`. -/
def get_bug_resp (ctx : Ctx) (http : Http) (endpoint : String)
    (urlParams : List (String × String)) :
    Http × Except PyExn BugListResponse :=
  match make_request ctx http (build_url ctx.baseUrl endpoint urlParams) with
  | (http1, Except.error e) => (http1, Except.error e)
  | (http1, Except.ok body) =>
    (http1,
      match parseEnvelope body with
      | Except.error e => Except.error e
      | Except.ok fields =>
        match BugListResponse.model_validate fields with
        | Except.ok r => Except.ok r
        | Except.error _ =>
            Except.error (PyExn.zenTaoError "error" "model validation failed"
              (some (Json.obj fields))))

/-- `BaseClient._extract_rec_total`, bug branch (`get_bug_list_data`). -/
def extract_rec_total_bug (r : BugListResponse) : Json :=
  match jsonParse r.data with
  | some (Json.obj fields) =>
    match jsonLookup "recTotal" fields with
    | some v => v
    | none => Json.num 0
  | _ => Json.num 0

/-- `BaseClient.get_paginated` instantiated at `BugListResponse`. -/
def get_paginated_bug (ctx : Ctx) (http : Http) (base_endpoint : String)
    (page per_page : Int) (sort_key : String) :
    Http × Except PyExn BugListResponse :=
  if page = 1 then
    get_bug_resp ctx http (base_endpoint ++ ".json") []
  else
    match get_bug_resp ctx http (base_endpoint ++ ".json") [] with
    | (http1, Except.error e) => (http1, Except.error e)
    | (http1, Except.ok first) =>
      get_bug_resp ctx http1
        (build_paginated_url base_endpoint sort_key
          (extract_rec_total_bug first) per_page page "assignedTo") []

/-- `BugListResponse.get_bug_list`: second decode of `data`, then
`BugListData` validation (`bugs` list required, `users` defaulted; item
fields kept as raw JSON as for tasks). -/
def get_bug_list (r : BugListResponse) : Except PyExn Json :=
  match jsonParse r.data with
  | none => Except.error PyExn.jsonDecodeError
  | some (Json.obj fields) =>
    match jsonLookup "bugs" fields with
    | some (Json.arr bs) =>
      match jsonLookup "users" fields with
      | none => Except.ok (Json.arr bs)
      | some (Json.obj _) => Except.ok (Json.arr bs)
      | some _ => Except.error (PyExn.validationError "BugListData")
    | _ => Except.error (PyExn.validationError "BugListData")
  | some _ => Except.error (PyExn.validationError "BugListData")

/-- `BugClient.get_my_bugs`: the same guard-then-paginate shape as
`get_my_tasks`, against `my-bug`. -/
def get_my_bugs (ctx : Ctx) (sid : Option String) (http : Http)
    (page per_page : Int) (sort_key : String) :
    Http × Except PyExn Json :=
  match sid with
  | none => (http, Except.error (PyExn.valueError "login required for bug list"))
  | some s =>
    if s = "" then
      (http, Except.error (PyExn.valueError "login required for bug list"))
    else
      match get_paginated_bug ctx http "my-bug" page per_page sort_key with
      | (http1, Except.error e) => (http1, Except.error e)
      | (http1, Except.ok r) => (http1, get_bug_list r)

/-- `CommonOperationResponse` (`models/common.py`): status, optional
message, optional `id` and `affected_rows`. -/
structure CommonOperationResponse where
  status : String
  message : Option String
  id : Option String
  affected_rows : Option Int

/-- Pydantic validation of `CommonOperationResponse`. -/
def CommonOperationResponse.model_validate (fields : List (String × Json)) :
    Except PyExn CommonOperationResponse :=
  match jsonLookup "status" fields with
  | some (Json.str st) =>
    if st = "success" ∨ st = "failed" ∨ st = "error" then
      match pydanticOptStr (jsonLookup "message" fields) none,
          pydanticOptStr (jsonLookup "id" fields) none with
      | Except.ok msg, Except.ok i =>
        (match jsonLookup "affected_rows" fields with
         | none => Except.ok ⟨st, msg, i, none⟩
         | some Json.null => Except.ok ⟨st, msg, i, none⟩
         | some v =>
           match pydanticInt v with
           | some n => Except.ok ⟨st, msg, i, some n⟩
           | none => Except.error (PyExn.validationError "affected_rows"))
      | _, _ => Except.error (PyExn.validationError "CommonOperationResponse")
    else Except.error (PyExn.validationError "ResponseStatus")
  | _ => Except.error (PyExn.validationError "CommonOperationResponse")

/-- `BaseClient.post` instantiated at `CommonOperationResponse` (the HTTP
method and the request body are not part of the recorded address; the
oracle distinguishes requests by URL and call index). -/
def post_common (ctx : Ctx) (http : Http) (endpoint : String)
    (urlParams : List (String × String)) :
    Http × Except PyExn CommonOperationResponse :=
  match make_request ctx http (build_url ctx.baseUrl endpoint urlParams) with
  | (http1, Except.error e) => (http1, Except.error e)
  | (http1, Except.ok body) =>
    (http1,
      match parseEnvelope body with
      | Except.error e => Except.error e
      | Except.ok fields =>
        match CommonOperationResponse.model_validate fields with
        | Except.ok r => Except.ok r
        | Except.error _ =>
            Except.error (PyExn.zenTaoError "error" "model validation failed"
              (some (Json.obj fields))))

/-- `TaskClient.start_task`: authentication guard, then the `task-start`
POST; *every* exception from the request is caught and mapped to `False`,
a success to `True`.  No capability check occurs anywhere on this path. -/
def start_task (ctx : Ctx) (sid : Option String) (http : Http)
    (task_id : String) : Http × Except PyExn Bool :=
  match sid with
  | none =>
      (http, Except.error (PyExn.valueError "login required to start task"))
  | some s =>
    if s = "" then
      (http, Except.error (PyExn.valueError "login required to start task"))
    else
      match post_common ctx http "task-start-\x7btask_id\x7d-\x7bsessionid\x7d.json"
          [("task_id", task_id), ("sessionid", s)] with
      | (http1, Except.ok _) => (http1, Except.ok true)
      | (http1, Except.error _) => (http1, Except.ok false)

/-! ## Endpoint capability registry (`openapi/registry.py`) -/

/-- `EndpointSpec` from the OpenAPI registry. -/
structure EndpointSpec where
  name : String
  method : String
  path : String
  verified : Bool
  notes : Option String

/-- The frozen `ENDPOINTS` table: every read endpoint is marked verified,
every write/mutate endpoint unverified. -/
def ENDPOINTS : List EndpointSpec :=
  [ ⟨"session.get_session_id", "GET", "/api-getSessionID.json", true, none⟩,
    ⟨"session.login", "GET", "/user-login-\x7bsessionid\x7d.json", true, none⟩,
    ⟨"session.logout", "GET", "/user-logout-\x7bsessionid\x7d.json", true, none⟩,
    ⟨"user.list", "GET", "/company-browse-\x7bdept_id\x7d.json", true, none⟩,
    ⟨"project.my_list", "GET", "/my-project.json", true, none⟩,
    ⟨"project.task_list", "GET", "/project-task-\x7bproject_id\x7d.json", true, none⟩,
    ⟨"project.bug_list", "GET", "/project-bug-\x7bproject_id\x7d.json", true, none⟩,
    ⟨"task.my_list", "GET", "/my-task.json", true, none⟩,
    ⟨"task.detail", "GET", "/task-view-\x7btask_id\x7d.json", true, none⟩,
    ⟨"bug.my_list", "GET", "/my-bug.json", true, none⟩,
    ⟨"bug.detail", "GET", "/bug-view-\x7bbug_id\x7d.json", true, none⟩,
    ⟨"task.create", "POST", "/task-create-\x7bproject_id\x7d--\x7bmodule_id\x7d-\x7bsessionid\x7d.json", false, none⟩,
    ⟨"task.start", "POST", "/task-start-\x7btask_id\x7d-\x7bsessionid\x7d.json", false, none⟩,
    ⟨"task.finish", "POST", "/task-finish-\x7btask_id\x7d-\x7bsessionid\x7d.json", false, none⟩,
    ⟨"task.close", "POST", "/task-close-\x7btask_id\x7d-\x7bsessionid\x7d.json", false, none⟩,
    ⟨"bug.create", "POST", "/bug-create-\x7bproduct_id\x7d-\x7bbranch\x7d-moduleID=\x7bmodule_id\x7d-\x7bsessionid\x7d.json", false, none⟩,
    ⟨"bug.resolve", "POST", "/bug-resolve-\x7bbug_id\x7d-\x7bsessionid\x7d.json", false, none⟩,
    ⟨"bug.confirm", "POST", "/bug-confirmBug-\x7bbug_id\x7d-\x7bsessionid\x7d.json", false, none⟩,
    ⟨"bug.close", "POST", "/bug-close-\x7bbug_id\x7d-\x7bsessionid\x7d.json", false, none⟩,
    ⟨"project.create", "POST", "/project-create-\x7bsessionid\x7d.json", false, none⟩,
    ⟨"project.close", "POST", "/project-close-\x7bproject_id\x7d-\x7bsessionid\x7d.json", false, none⟩,
    ⟨"project.start", "POST", "/project-start-\x7bproject_id\x7d-\x7bsessionid\x7d.json", false, none⟩ ]

/-- `list_unverified_endpoints`. -/
def list_unverified_endpoints : List EndpointSpec :=
  ENDPOINTS.filter (fun e => !e.verified)

/-- Verification status of a named endpoint in the capability table. -/
def endpoint_verified (name : String) : Option Bool :=
  (ENDPOINTS.find? (fun e => e.name = name)).map (fun e => e.verified)

/-! ## Concrete scenarios

Shared fixtures for the spec's Scenarios A–D: a fresh transport, the
backend bodies, and oracles assigning an outcome to each address. -/

/-- A fresh transport state. -/
def http0 : Http := { trace := [], cookies := [] }

/-- Scenario B second-stage `data` string: the page-1 pager reports
`recTotal=45, recPerPage=20, pageID=1, pageTotal=3` (as in live captures,
the record totals also appear at the top level of `data`, which is where
`_extract_rec_total` reads them). -/
def pagerData45 : String :=
  "\x7b\"pager\":\x7b\"recTotal\":45,\"recPerPage\":20,\"pageID\":1,\"pageTotal\":3\x7d,\"recTotal\":45,\"recPerPage\":20\x7d"

/-- Scenario B page-1 response body. -/
def taskBody45 : Json :=
  Json.obj [("status", Json.str "success"), ("data", Json.str pagerData45)]

/-- A minimal valid later-page body (its `data` is never re-probed). -/
def taskBodyLater : Json :=
  Json.obj [("status", Json.str "success"), ("data", Json.str "\x7b\x7d")]

/-- The base URL used by every concrete scenario. -/
def baseU : String := "http://zentao"

/-- Address of the bare page-1 `my-task` request. -/
def urlTask1 : String := "http://zentao/my-task.json"

/-- Address of the count-addressed page-2 request of Scenario B. -/
def urlTask2 : String := "http://zentao/my-task-assignedTo-id_desc-45-20-2.json"

/-- Address of the count-addressed page-3 request of Scenario B. -/
def urlTask3 : String := "http://zentao/my-task-assignedTo-id_desc-45-20-3.json"

/-- Scenario B oracle: every page request succeeds. -/
def oracleB : Nat → String → HttpOutcome := fun _ url =>
  if url = urlTask1 then HttpOutcome.ok (some taskBody45) []
  else if url = urlTask2 then HttpOutcome.ok (some taskBodyLater) []
  else if url = urlTask3 then HttpOutcome.ok (some taskBodyLater) []
  else HttpOutcome.requestError "unexpected address"

/-- Scenario B context. -/
def ctxB : Ctx := { oracle := oracleB, baseUrl := baseU }

/-- Scenario C oracle: page 1 succeeds, the count-addressed page-2 request
fails with a network error. -/
def oracleC : Nat → String → HttpOutcome := fun _ url =>
  if url = urlTask1 then HttpOutcome.ok (some taskBody45) []
  else HttpOutcome.requestError "connection reset"

/-- Scenario C context. -/
def ctxC : Ctx := { oracle := oracleC, baseUrl := baseU }

/-- Scenario A second-stage `data` string (a JSON-encoded string inside
the envelope's `data` field). -/
def sessionDataA : String :=
  "\x7b\"sessionID\":\"abc1234567\",\"sessionName\":\"zentaosid\",\"rand\":42\x7d"

/-- Scenario A bootstrap envelope. -/
def sessionBodyA : Json :=
  Json.obj [("status", Json.str "success"), ("data", Json.str sessionDataA)]

/-- Address of the session bootstrap request. -/
def urlSession : String := "http://zentao/api-getSessionID.json"

/-- Scenario A oracle: the bootstrap succeeds. -/
def oracleA : Nat → String → HttpOutcome := fun _ url =>
  if url = urlSession then HttpOutcome.ok (some sessionBodyA) []
  else HttpOutcome.requestError "unexpected address"

/-- Scenario A context. -/
def ctxA : Ctx := { oracle := oracleA, baseUrl := baseU }

/-- A page-1 body whose `data` string is not JSON at all — no parsable
pager information. -/
def taskBodyNoPager : Json :=
  Json.obj [("status", Json.str "success"), ("data", Json.str "not json")]

/-- Oracle for the unparsable-pager run. -/
def oracleNoPager : Nat → String → HttpOutcome := fun _ url =>
  if url = urlTask1 then HttpOutcome.ok (some taskBodyNoPager) []
  else HttpOutcome.requestError "unexpected address"

/-- Context for the unparsable-pager run. -/
def ctxNoPager : Ctx := { oracle := oracleNoPager, baseUrl := baseU }

/-- Scenario D address: the `task-start` POST for task 42. -/
def urlStart42 : String :=
  "http://zentao/task-start-42-sid4567890123.json"

/-- Scenario D oracle: the mutate endpoint answers success. -/
def oracleD : Nat → String → HttpOutcome := fun _ url =>
  if url = urlStart42 then
    HttpOutcome.ok (some (Json.obj [("status", Json.str "success")])) []
  else HttpOutcome.requestError "unexpected address"

/-- Scenario D context. -/
def ctxD : Ctx := { oracle := oracleD, baseUrl := baseU }

/-- `TaskListResponse` carrying the Scenario B pager data. -/
def respB : TaskListResponse := ⟨"success", pagerData45⟩

/-- `TaskListResponse` carried by the later-page bodies. -/
def respLater : TaskListResponse := ⟨"success", "\x7b\x7d"⟩

/-- A unified-client state holding the falsy session token `""` (a state
reachable through the public `session_id` setter). -/
def stEmptySid : ZenTaoState := { zentao_init with sessionSid := some "" }

/-- Address of the login request issued with the Scenario A token. -/
def urlLogin : String := "http://zentao/user-login-abc1234567.json"

/-- A successful login envelope carrying a user dict. -/
def loginBody : Json :=
  Json.obj [("status", Json.str "success"),
    ("user", Json.obj [("account", Json.str "admin")])]

/-- Oracle for a full login flow: the bootstrap succeeds with the
Scenario A body, then the login request succeeds. -/
def oracleLogin : Nat → String → HttpOutcome := fun _ url =>
  if url = urlSession then HttpOutcome.ok (some sessionBodyA) []
  else if url = urlLogin then HttpOutcome.ok (some loginBody) []
  else HttpOutcome.requestError "unexpected address"

/-- Context for the login flow. -/
def ctxLogin : Ctx := { oracle := oracleLogin, baseUrl := baseU }

/-- Whether a task list response carries no parsable record total: its
`data` is not valid JSON, or not an object, or an object without a
`recTotal` key. -/
def no_pager_data (r : TaskListResponse) : Bool :=
  match jsonParse r.data with
  | some (Json.obj fields) => (jsonLookup "recTotal" fields).isNone
  | _ => true

/-! ## Helper lemmas -/

/-- Every call to `make_request` extends the trace by exactly its URL. -/
theorem trace_make_request (ctx : Ctx) (http : Http) (url : String) :
    (make_request ctx http url).1.trace = http.trace ++ [url] := by
  unfold make_request
  cases ctx.oracle http.trace.length url <;> rfl

/-- `get_task` issues exactly one request. -/
theorem trace_get_task (ctx : Ctx) (http : Http) (ep : String)
    (ps : List (String × String)) :
    (get_task ctx http ep ps).1.trace =
      http.trace ++ [build_url ctx.baseUrl ep ps] := by
  unfold get_task
  have h := trace_make_request ctx http (build_url ctx.baseUrl ep ps)
  rcases hm : make_request ctx http (build_url ctx.baseUrl ep ps) with ⟨h1, r⟩
  rw [hm] at h
  cases r <;> simpa using h

/-- `get_paginated` issues at most two requests. -/
theorem trace_get_paginated_le (ctx : Ctx) (http : Http) (be : String)
    (p pp : Int) (sk : String) :
    (get_paginated ctx http be p pp sk).1.trace.length ≤
      http.trace.length + 2 := by
  unfold get_paginated
  by_cases hp : p = 1
  · simp only [hp, if_pos rfl]
    have h := trace_get_task ctx http (be ++ ".json") []
    rcases hg : get_task ctx http (be ++ ".json") [] with ⟨h1, r⟩
    rw [hg] at h
    simp only at h
    simp [h]
  · simp only [if_neg hp]
    have h := trace_get_task ctx http (be ++ ".json") []
    rcases hg : get_task ctx http (be ++ ".json") [] with ⟨h1, r⟩
    rw [hg] at h
    simp only at h
    cases r with
    | error e => simp [h]
    | ok first =>
      show (get_task ctx h1
          (build_paginated_url be sk (extract_rec_total first) pp p
            "assignedTo") []).1.trace.length ≤ http.trace.length + 2
      rw [trace_get_task, h]
      simp [List.length_append]

/-- The aggregation loop issues at most two requests per remaining page
and appends at most one response per remaining page. -/
theorem fetch_pages_loop_le (ctx : Ctx) (be : String) (pp : Int) (sk : String) :
    ∀ (pages : List Int) (http : Http) (acc : List TaskListResponse),
      (fetch_pages_loop ctx be pp sk pages http acc).1.trace.length ≤
        http.trace.length + 2 * pages.length ∧
      (fetch_pages_loop ctx be pp sk pages http acc).2.length ≤
        acc.length + pages.length := by
  intro pages
  induction pages with
  | nil => intro http acc; simp [fetch_pages_loop]
  | cons p rest ih =>
    intro http acc
    have hgp := trace_get_paginated_le ctx http be p pp sk
    rcases hg : get_paginated ctx http be p pp sk with ⟨h1, r⟩
    rw [hg] at hgp
    simp only at hgp
    cases r with
    | error e =>
      simp only [fetch_pages_loop, hg]
      constructor
      · simp only [List.length_cons]; omega
      · simp only [List.length_cons]; omega
    | ok r =>
      simp only [fetch_pages_loop, hg]
      rcases ih h1 (acc ++ [r]) with ⟨iht, ihr⟩
      constructor
      · refine Nat.le_trans iht ?_
        simp only [List.length_cons]; omega
      · refine Nat.le_trans ihr ?_
        simp only [List.length_append, List.length_cons, List.length_nil]
        omega

/-- The aggregation loop only ever appends to the accumulated pages. -/
theorem fetch_pages_loop_prefix (ctx : Ctx) (be : String) (pp : Int)
    (sk : String) :
    ∀ (pages : List Int) (http : Http) (acc : List TaskListResponse),
      ∃ extra, (fetch_pages_loop ctx be pp sk pages http acc).2 = acc ++ extra := by
  intro pages
  induction pages with
  | nil => intro http acc; exact ⟨[], by simp [fetch_pages_loop]⟩
  | cons p rest ih =>
    intro http acc
    rcases hg : get_paginated ctx http be p pp sk with ⟨h1, r⟩
    cases r with
    | error e => exact ⟨[], by simp [fetch_pages_loop, hg]⟩
    | ok r =>
      rcases ih h1 (acc ++ [r]) with ⟨extra, hx⟩
      exact ⟨[r] ++ extra, by simp [fetch_pages_loop, hg, hx]⟩

/-- The loop traverses `max(total_pages − 1, 0)` page numbers. -/
theorem pages_range_length (tp : Int) :
    (pages_range tp).length = (tp - 1).toNat := by
  unfold pages_range
  rw [List.length_map, List.length_range]

/-- A page-1 `get_paginated` issues exactly one request, to the bare
endpoint. -/
theorem trace_get_paginated_one (ctx : Ctx) (http : Http) (be : String)
    (pp : Int) (sk : String) :
    (get_paginated ctx http be 1 pp sk).1.trace =
      http.trace ++ [build_url ctx.baseUrl (be ++ ".json") []] := by
  unfold get_paginated
  rw [if_pos rfl]
  exact trace_get_task ctx http (be ++ ".json") []

/-! ## The claims -/

/-- C1, counterexample.  Scenario B (`recTotal=45, perPage=20`,
`pageTotal=3`, every request succeeding): the claim says the fetch-all
issues exactly two requests beyond the initial page-1 request, i.e. the
trace `[page1, page2-addressed, page3-addressed]`.  In fact
`get_paginated(page=N>1)` re-fetches page 1 before each addressed page,
so the trace has five entries, not three. -/
theorem C1_two_further_requests_refuted :
    (get_all_pages ctxB http0 "my-task" 20 "id_desc" none).1.trace =
      [urlTask1, urlTask1, urlTask2, urlTask1, urlTask3] ∧
    (get_all_pages ctxB http0 "my-task" 20 "id_desc" none).1.trace ≠
      [urlTask1, urlTask2, urlTask3] := by
  refine ⟨rfl, ?_⟩
  intro h
  rw [show (get_all_pages ctxB http0 "my-task" 20 "id_desc" none).1.trace =
      [urlTask1, urlTask1, urlTask2, urlTask1, urlTask3] from rfl] at h
  have hl := congrArg List.length h
  simp at hl

/-- C1, amended.  Scenario B issues four further requests beyond the
initial page-1 request: each page beyond 1 is preceded by a fresh page-1
probe, and the two count-addressed requests
`my-task-assignedTo-id_desc-45-20-2.json` and `...-45-20-3.json` occur in
increasing page order; the aggregate holds all three page responses. -/
theorem C1_fetch_all_probed_requests :
    (get_all_pages ctxB http0 "my-task" 20 "id_desc" none).1.trace =
      [urlTask1, urlTask1, urlTask2, urlTask1, urlTask3] ∧
    (get_all_pages ctxB http0 "my-task" 20 "id_desc" none).2 =
      Except.ok [respB, respLater, respLater] :=
  ⟨rfl, rfl⟩

/-- C2, counterexample.  With `maxPages = 2` on Scenario B the fetch-all
issues three page requests (page 1, then a fresh page-1 probe plus the
addressed page-2 request), exceeding the claimed bound of `k = 2`. -/
theorem C2_at_most_k_requests_refuted :
    (get_all_pages ctxB http0 "my-task" 20 "id_desc" (some 2)).1.trace.length
      = 3 ∧
    ¬ ((get_all_pages ctxB http0 "my-task" 20 "id_desc"
        (some 2)).1.trace.length ≤ 2) := by
  refine ⟨rfl, ?_⟩
  intro h
  rw [show (get_all_pages ctxB http0 "my-task" 20 "id_desc"
      (some 2)).1.trace.length = 3 from rfl] at h
  omega

/-- C2, amended.  For every backend and `k ≥ 1`, a fetch-all with
`maxPages = k` issues at most `2k − 1` page requests (each page beyond the
first costs an extra page-1 probe) and returns at most `k` page responses
(hence at most `k·perPage` items when each page carries at most
`perPage`). -/
theorem C2_max_pages_bound (ctx : Ctx) (http : Http) (be : String)
    (pp : Int) (sk : String) (k : Int) (hk : 1 ≤ k) :
    (get_all_pages ctx http be pp sk (some k)).1.trace.length ≤
      http.trace.length + (2 * k.toNat - 1) ∧
    ∀ rs, (get_all_pages ctx http be pp sk (some k)).2 = Except.ok rs →
      rs.length ≤ k.toNat := by
  have hp1 := trace_get_paginated_one ctx http be pp sk
  rcases hg : get_paginated ctx http be 1 pp sk with ⟨h1, r⟩
  rw [hg] at hp1
  simp only at hp1
  have h1len : h1.trace.length = http.trace.length + 1 := by
    rw [hp1]; simp
  simp only [get_all_pages, hg]
  cases r with
  | error e =>
    refine ⟨by show h1.trace.length ≤ _; omega, ?_⟩
    intro rs hrs
    exact absurd hrs (by simp)
  | ok first =>
    cases htp : total_pages_of (extract_rec_total first) pp with
    | error e2 =>
      simp only [htp]
      refine ⟨by show h1.trace.length ≤ _; omega, ?_⟩
      intro rs hrs
      exact absurd hrs (by simp)
    | ok tp0 =>
      simp only [htp]
      have hb := fetch_pages_loop_le ctx be pp sk
        (pages_range (capped_total_pages tp0 (some k))) h1 [first]
      have hpl : (pages_range (capped_total_pages tp0 (some k))).length ≤
          k.toNat - 1 := by
        have hcap : capped_total_pages tp0 (some k) ≤ k := by
          unfold capped_total_pages
          have hk0 : k ≠ 0 := by omega
          simp only [hk0, if_pos, ne_eq, not_false_eq_true, if_true]
          exact min_le_right _ _
        rw [pages_range_length]
        omega
      constructor
      · show (fetch_pages_loop ctx be pp sk
            (pages_range (capped_total_pages tp0 (some k))) h1
            [first]).1.trace.length ≤ http.trace.length + (2 * k.toNat - 1)
        have := hb.1
        omega
      · intro rs hrs
        have hres : (fetch_pages_loop ctx be pp sk
            (pages_range (capped_total_pages tp0 (some k))) h1 [first]).2
              = rs := by
          injection hrs
        have := hb.2
        rw [hres] at this
        simp only [List.length_cons, List.length_nil] at this
        omega

/-- C2 witness: the amended bound instantiated at Scenario B with `k = 2`. -/
theorem C2_max_pages_bound_witness :
    (1 : Int) ≤ 2 ∧
    ((get_all_pages ctxB http0 "my-task" 20 "id_desc" (some 2)).1.trace.length ≤
        http0.trace.length + (2 * (2 : Int).toNat - 1) ∧
      ∀ rs, (get_all_pages ctxB http0 "my-task" 20 "id_desc" (some 2)).2 =
          Except.ok rs → rs.length ≤ (2 : Int).toNat) :=
  ⟨by decide, C2_max_pages_bound ctxB http0 "my-task" 20 "id_desc" 2 (by decide)⟩

/-- C3, counterexample.  In Scenario C (the addressed page-2 request fails
with a network error) the fetch-all stops and returns the page-1 items —
but its aggregate is *identical*, as a value, to the aggregate of a fully
successful single-page run (same first body, `perPage = 45`, nothing
failed).  The result type is a bare list: nothing in it is "marked with
`partial=true`", which refutes that part of the claim. -/
theorem C3_partial_flag_refuted :
    (get_all_pages ctxC http0 "my-task" 20 "id_desc" none).1.trace =
      [urlTask1, urlTask1, urlTask2] ∧
    (get_all_pages ctxC http0 "my-task" 20 "id_desc" none).2 =
      (get_all_pages ctxB http0 "my-task" 45 "id_desc" none).2 :=
  ⟨rfl, rfl⟩

/-- C3, amended.  Whenever page 1 succeeds (and the page-count arithmetic
does), the fetch-all never raises: it returns `ok` with the first page
followed by whatever later pages succeeded before the first failure.  In
Scenario C concretely: the page-2 failure stops the aggregation (no
further request follows the failed one) and the caller receives exactly
the page-1 response, with no exception and no partial flag. -/
theorem C3_post_page1_failure_swallowed :
    (∀ (ctx : Ctx) (http h1 : Http) (be : String) (pp : Int) (sk : String)
        (mp : Option Int) (first : TaskListResponse) (tp0 : Int),
      get_paginated ctx http be 1 pp sk = (h1, Except.ok first) →
      total_pages_of (extract_rec_total first) pp = Except.ok tp0 →
      ∃ rs, (get_all_pages ctx http be pp sk mp).2 = Except.ok (first :: rs)) ∧
    ((get_all_pages ctxC http0 "my-task" 20 "id_desc" none).2 =
        Except.ok [respB] ∧
      (get_all_pages ctxC http0 "my-task" 20 "id_desc" none).1.trace =
        [urlTask1, urlTask1, urlTask2]) := by
  constructor
  · intro ctx http h1 be pp sk mp first tp0 hg htp
    simp only [get_all_pages, hg, htp]
    rcases fetch_pages_loop_prefix ctx be pp sk
        (pages_range (capped_total_pages tp0 mp)) h1 [first] with ⟨extra, hx⟩
    refine ⟨extra, ?_⟩
    show Except.ok (fetch_pages_loop ctx be pp sk
        (pages_range (capped_total_pages tp0 mp)) h1 [first]).2 =
      Except.ok (first :: extra)
    rw [hx]
    rfl
  · exact ⟨rfl, rfl⟩

/-- C3 witness: the general no-raise statement applied to Scenario C. -/
theorem C3_post_page1_failure_swallowed_witness :
    get_paginated ctxC http0 "my-task" 1 20 "id_desc" =
      ({ trace := [urlTask1], cookies := [] }, Except.ok respB) ∧
    total_pages_of (extract_rec_total respB) 20 = Except.ok 3 ∧
    ∃ rs, (get_all_pages ctxC http0 "my-task" 20 "id_desc" none).2 =
      Except.ok (respB :: rs) :=
  ⟨rfl, rfl,
    C3_post_page1_failure_swallowed.1 ctxC http0
      { trace := [urlTask1], cookies := [] } "my-task" 20 "id_desc" none
      respB 3 rfl rfl⟩

/-- C9.  Extracting the record total is total by construction (the
source's catch-all `try` returns the default `0` on any failure): whenever
the response's `data` carries no parsable `recTotal` — unparsable, not an
object, or missing the key — the extractor returns `0`; consequently a
fetch-all over such a first page computes zero total pages, issues no
further request, and returns just the first page with no error. -/
theorem C9_rec_total_defaults_to_zero :
    (∀ r : TaskListResponse, no_pager_data r = true →
      extract_rec_total r = Json.num 0) ∧
    (∀ (ctx : Ctx) (http h1 : Http) (be : String) (pp : Int) (sk : String)
        (mp : Option Int) (first : TaskListResponse),
      get_paginated ctx http be 1 pp sk = (h1, Except.ok first) →
      no_pager_data first = true → 1 ≤ pp →
      get_all_pages ctx http be pp sk mp = (h1, Except.ok [first])) := by
  have hextract : ∀ r : TaskListResponse, no_pager_data r = true →
      extract_rec_total r = Json.num 0 := by
    intro r h
    unfold no_pager_data at h
    unfold extract_rec_total
    cases hj : jsonParse r.data with
    | none => rfl
    | some j =>
      rw [hj] at h
      cases j with
      | obj fields =>
        simp only [Option.isNone_iff_eq_none] at h
        show (match jsonLookup "recTotal" fields with
          | some v => v
          | none => Json.num 0) = Json.num 0
        rw [h]
      | null => rfl
      | bool b => rfl
      | num n => rfl
      | str s => rfl
      | arr xs => rfl
  refine ⟨hextract, ?_⟩
  intro ctx http h1 be pp sk mp first hg hnp hpp
  have h0 := hextract first hnp
  have hpp0 : pp ≠ 0 := by omega
  have htp : total_pages_of (extract_rec_total first) pp = Except.ok 0 := by
    rw [h0]
    show (if pp = 0 then Except.error PyExn.zeroDivisionError
      else Except.ok (Int.fdiv (0 + pp - 1) pp)) = Except.ok 0
    rw [if_neg hpp0]
    have hdiv : Int.fdiv (0 + pp - 1) pp = 0 := by
      rw [Int.fdiv_eq_ediv _ (by omega)]
      apply Int.ediv_eq_zero_of_lt <;> omega
    rw [hdiv]
  have hcap : capped_total_pages 0 mp ≤ 0 := by
    unfold capped_total_pages
    cases mp with
    | none => exact le_refl 0
    | some m =>
      by_cases hm : m = 0
      · simp [hm]
      · simp only [hm, ne_eq, not_false_eq_true, if_true]
        exact min_le_left _ _
  have hpr : pages_range (capped_total_pages 0 mp) = [] := by
    unfold pages_range
    rw [show (capped_total_pages 0 mp - 1).toNat = 0 by omega]
    rfl
  simp only [get_all_pages, hg, htp, hpr, fetch_pages_loop]

/-- C9 witness: a first page whose `data` is not JSON at all. -/
theorem C9_rec_total_defaults_to_zero_witness :
    get_paginated ctxNoPager http0 "my-task" 1 20 "id_desc" =
      ({ trace := [urlTask1], cookies := [] },
        Except.ok ⟨"success", "not json"⟩) ∧
    no_pager_data ⟨"success", "not json"⟩ = true ∧
    (1 : Int) ≤ 20 ∧
    get_all_pages ctxNoPager http0 "my-task" 20 "id_desc" none =
      ({ trace := [urlTask1], cookies := [] },
        Except.ok [⟨"success", "not json"⟩]) :=
  ⟨rfl, rfl, by decide,
    C9_rec_total_defaults_to_zero.2 ctxNoPager http0
      { trace := [urlTask1], cookies := [] } "my-task" 20 "id_desc" none
      ⟨"success", "not json"⟩ rfl rfl (by decide)⟩

/-- A successful `session_get_session_id` stores exactly the returned
token. -/
theorem session_get_session_id_ok (ctx : Ctx) (sid : Option String)
    (http : Http) (sid' : Option String) (http' : Http) (t : String) :
    session_get_session_id ctx sid http = ((sid', http'), Except.ok t) →
    sid' = some t := by
  unfold session_get_session_id
  rcases hr : get_session_resp ctx http "api-getSessionID.json" [] with ⟨h1, r⟩
  cases r with
  | error e =>
    intro h
    simp only [Prod.mk.injEq] at h
    exact absurd h.2 (by simp)
  | ok resp =>
    cases hd : resp.get_session_data with
    | error e =>
      intro h
      simp only [hd, Prod.mk.injEq] at h
      exact absurd h.2 (by simp)
    | ok sd =>
      intro h
      simp only [hd, Prod.mk.injEq, Except.ok.injEq] at h
      rw [← h.1.1, h.2]

/-- `session_logout` clears the stored id whenever the held id is not the
falsy empty string. -/
theorem session_logout_clears (ctx : Ctx) (sid : Option String) (http : Http)
    (hne : sid ≠ some "") : (session_logout ctx sid http).1.1 = none := by
  cases sid with
  | none => rfl
  | some s =>
    have hs : s ≠ "" := fun hh => hne (by rw [hh])
    unfold session_logout
    rcases hr : get_logout_resp ctx http "user-logout-\x7bsessionid\x7d.json"
        [("sessionid", s)] with ⟨h1, r⟩
    cases r <;> simp [hs, hr]

/-- C4, counterexample.  After a successful session acquisition on a fresh
unified client, the task façade holds its own copy of the session token in
its `_session_id` field — contradicting "no per-resource façade holds its
own copy of the session token; authenticated state is observed only
through the shared transport's cookie jar". -/
theorem C4_no_facade_copy_refuted :
    (zentao_get_session_id ctxA zentao_init).1.taskSid = some "abc1234567" ∧
    (zentao_get_session_id ctxA zentao_init).1.taskSid ≠ none := by
  refine ⟨rfl, ?_⟩
  rw [show (zentao_get_session_id ctxA zentao_init).1.taskSid =
      some "abc1234567" from rfl]
  simp

/-- C4, amended.  The unified client *duplicates* the token: after a
successful session acquisition every façade's `_session_id` equals the
fresh token, after a successful `login` every façade's copy mirrors the
session client's field, and after `logout` likewise — all kept consistent
by `_sync_session_id_to_clients`.  The cookie jar is shared, but it is
not the only holder of auth state. -/
theorem C4_facades_hold_synced_copies :
    (∀ (ctx : Ctx) (st st' : ZenTaoState) (t : String),
      zentao_get_session_id ctx st = (st', Except.ok t) →
      st'.sessionSid = some t ∧ st'.userSid = some t ∧
      st'.projectSid = some t ∧ st'.taskSid = some t ∧
      st'.bugSid = some t) ∧
    (∀ (ctx : Ctx) (st st' : ZenTaoState) (u : Json)
        (username password : String),
      zentao_login ctx st username password = (st', Except.ok u) →
      st'.userSid = st'.sessionSid ∧ st'.projectSid = st'.sessionSid ∧
      st'.taskSid = st'.sessionSid ∧ st'.bugSid = st'.sessionSid) ∧
    (∀ (ctx : Ctx) (st : ZenTaoState),
      (zentao_logout ctx st).1.userSid = (zentao_logout ctx st).1.sessionSid ∧
      (zentao_logout ctx st).1.projectSid = (zentao_logout ctx st).1.sessionSid ∧
      (zentao_logout ctx st).1.taskSid = (zentao_logout ctx st).1.sessionSid ∧
      (zentao_logout ctx st).1.bugSid = (zentao_logout ctx st).1.sessionSid) := by
  refine ⟨?_, ?_, ?_⟩
  · intro ctx st st' t h
    have hok := session_get_session_id_ok ctx st.sessionSid st.http
    unfold zentao_get_session_id at h
    rcases hs : session_get_session_id ctx st.sessionSid st.http with ⟨⟨sid', http'⟩, r⟩
    rw [hs] at h
    cases r with
    | error e =>
      simp only [Prod.mk.injEq] at h
      exact absurd h.2 (by simp)
    | ok t' =>
      simp only [Prod.mk.injEq, Except.ok.injEq] at h
      have hsid : sid' = some t' := hok sid' http' t' hs
      rw [← h.1, ← h.2]
      unfold sync_session_id_to_clients
      simp [hsid]
  · intro ctx st st' u username password h
    unfold zentao_login at h
    rcases hs : session_login ctx st.sessionSid st.http username password
      with ⟨⟨sid', http'⟩, r⟩
    rw [hs] at h
    cases r with
    | error e =>
      simp only [Prod.mk.injEq] at h
      exact absurd h.2 (by simp)
    | ok user =>
      simp only [Prod.mk.injEq, Except.ok.injEq] at h
      rw [← h.1]
      unfold sync_session_id_to_clients
      simp
  · intro ctx st
    rcases hs : session_logout ctx st.sessionSid st.http with ⟨⟨sid', http'⟩, b⟩
    simp [zentao_logout, hs, sync_session_id_to_clients]

/-- C4 witness: the sync equalities at the Scenario A acquisition and at a
successful login run from a fresh client. -/
theorem C4_facades_hold_synced_copies_witness :
    (zentao_get_session_id ctxA zentao_init =
      ((zentao_get_session_id ctxA zentao_init).1,
        Except.ok "abc1234567") ∧
      ((zentao_get_session_id ctxA zentao_init).1.sessionSid =
          some "abc1234567" ∧
        (zentao_get_session_id ctxA zentao_init).1.userSid = some "abc1234567" ∧
        (zentao_get_session_id ctxA zentao_init).1.projectSid = some "abc1234567" ∧
        (zentao_get_session_id ctxA zentao_init).1.taskSid = some "abc1234567" ∧
        (zentao_get_session_id ctxA zentao_init).1.bugSid = some "abc1234567")) ∧
    (zentao_login ctxLogin zentao_init "admin" "123456" =
      ((zentao_login ctxLogin zentao_init "admin" "123456").1,
        Except.ok (Json.obj [("account", Json.str "admin")])) ∧
      ((zentao_login ctxLogin zentao_init "admin" "123456").1.userSid =
          (zentao_login ctxLogin zentao_init "admin" "123456").1.sessionSid ∧
        (zentao_login ctxLogin zentao_init "admin" "123456").1.projectSid =
          (zentao_login ctxLogin zentao_init "admin" "123456").1.sessionSid ∧
        (zentao_login ctxLogin zentao_init "admin" "123456").1.taskSid =
          (zentao_login ctxLogin zentao_init "admin" "123456").1.sessionSid ∧
        (zentao_login ctxLogin zentao_init "admin" "123456").1.bugSid =
          (zentao_login ctxLogin zentao_init "admin" "123456").1.sessionSid)) :=
  ⟨⟨rfl,
      C4_facades_hold_synced_copies.1 ctxA zentao_init
        (zentao_get_session_id ctxA zentao_init).1 "abc1234567" rfl⟩,
    ⟨rfl,
      C4_facades_hold_synced_copies.2.1 ctxLogin zentao_init
        (zentao_login ctxLogin zentao_init "admin" "123456").1
        (Json.obj [("account", Json.str "admin")]) "admin" "123456" rfl⟩⟩

/-- C5.  Scenario A: the bootstrap envelope `status=success` with the
JSON-encoded string payload decodes in two stages and yields the token
`abc1234567`, which is also stored as the client's session id; exactly one
request is issued. -/
theorem C5_bootstrap_two_level_decode :
    session_get_session_id ctxA none http0 =
      ((some "abc1234567", { trace := [urlSession], cookies := [] }),
        Except.ok "abc1234567") := rfl

/-- C6, counterexample.  From a state holding the falsy token `""` (the
public `session_id` setter accepts it), `logout` returns `True` and leaves
the session field *uncleared* (`some ""`, not `None`): "always clears the
locally held session state" fails for this starting state, although no
exception is raised. -/
theorem C6_always_clears_refuted :
    (zentao_logout ctxA stEmptySid).1.sessionSid = some "" ∧
    (zentao_logout ctxA stEmptySid).1.sessionSid ≠ none ∧
    (zentao_logout ctxA stEmptySid).2 = true := by
  refine ⟨rfl, ?_, rfl⟩
  rw [show (zentao_logout ctxA stEmptySid).1.sessionSid = some "" from rfl]
  simp

/-- C6, amended.  `logout` never raises — it is a total function into
`state × Bool` because every backend exception is caught — and always
returns a boolean indicator; it always clears the cached user and the
shared cookie jar, and clears every façade's session id whenever the held
id is not the (setter-injected) falsy empty string. -/
theorem C6_logout_never_raises (ctx : Ctx) (st : ZenTaoState) :
    ((zentao_logout ctx st).1.currentUser = none ∧
      (zentao_logout ctx st).1.http.cookies = []) ∧
    (st.sessionSid ≠ some "" →
      (zentao_logout ctx st).1.sessionSid = none ∧
      (zentao_logout ctx st).1.userSid = none ∧
      (zentao_logout ctx st).1.projectSid = none ∧
      (zentao_logout ctx st).1.taskSid = none ∧
      (zentao_logout ctx st).1.bugSid = none) := by
  have hclr := session_logout_clears ctx st.sessionSid st.http
  rcases hs : session_logout ctx st.sessionSid st.http with ⟨⟨sid', http'⟩, b⟩
  rw [hs] at hclr
  simp only at hclr
  constructor
  · simp [zentao_logout, hs, sync_session_id_to_clients]
  · intro hne
    have : sid' = none := hclr hne
    simp [zentao_logout, hs, sync_session_id_to_clients, this]

/-- C6 witness: the clearing conclusions at Scenario A from a fresh
client. -/
theorem C6_logout_never_raises_witness :
    ((zentao_logout ctxA zentao_init).1.currentUser = none ∧
      (zentao_logout ctxA zentao_init).1.http.cookies = []) ∧
    ((zentao_logout ctxA zentao_init).1.sessionSid = none ∧
      (zentao_logout ctxA zentao_init).1.userSid = none ∧
      (zentao_logout ctxA zentao_init).1.projectSid = none ∧
      (zentao_logout ctxA zentao_init).1.taskSid = none ∧
      (zentao_logout ctxA zentao_init).1.bugSid = none) :=
  ⟨(C6_logout_never_raises ctxA zentao_init).1,
    (C6_logout_never_raises ctxA zentao_init).2 (by simp [zentao_init])⟩

/-- C10.  `logout` with no held session token returns `True` immediately:
the session id remains `None`, the transport state (trace and cookie jar)
is returned untouched, and no request is issued. -/
theorem C10_logout_without_session (ctx : Ctx) (http : Http) :
    session_logout ctx none http = ((none, http), true) := rfl

/-- C7, counterexample.  Unauthenticated `get_my_tasks` fails fast with the
*builtin* `ValueError` — the code base defines no `AuthRequiredError`
class (its only custom exception is `ZenTaoError`), so the claimed
exception type does not exist; the zero-I/O part holds (the transport
state comes back untouched). -/
theorem C7_auth_required_error_refuted :
    get_my_tasks ctxB none http0 1 20 "id_desc" =
      (http0, Except.error (PyExn.valueError "login required for task list")) ∧
    ∀ st msg d, (get_my_tasks ctxB none http0 1 20 "id_desc").2 ≠
      Except.error (PyExn.zenTaoError st msg d) := by
  refine ⟨rfl, ?_⟩
  intro st msg d h
  rw [show (get_my_tasks ctxB none http0 1 20 "id_desc").2 =
      Except.error (PyExn.valueError "login required for task list")
    from rfl] at h
  simp at h

/-- C7, amended.  Every unauthenticated call to the cited resource-client
operations fails fast by raising `ValueError` (not `AuthRequiredError`,
which does not exist in the code) before any network request: the
transport state is returned unchanged, so zero I/O happens. -/
theorem C7_unauthenticated_fail_fast (ctx : Ctx) (http : Http)
    (sid : Option String) (page pp : Int) (sk : String)
    (h : sid = none ∨ sid = some "") :
    get_my_tasks ctx sid http page pp sk =
      (http, Except.error (PyExn.valueError "login required for task list")) ∧
    get_my_bugs ctx sid http page pp sk =
      (http, Except.error (PyExn.valueError "login required for bug list")) := by
  rcases h with h | h <;> subst h <;> exact ⟨rfl, rfl⟩

/-- C7 witness: the fail-fast conclusions for a `None` session id. -/
theorem C7_unauthenticated_fail_fast_witness :
    ((none : Option String) = none ∨ (none : Option String) = some "") ∧
    (get_my_tasks ctxB none http0 1 20 "id_desc" =
      (http0, Except.error (PyExn.valueError "login required for task list")) ∧
     get_my_bugs ctxB none http0 1 20 "id_desc" =
      (http0, Except.error (PyExn.valueError "login required for bug list"))) :=
  ⟨Or.inl rfl,
    C7_unauthenticated_fail_fast ctxB http0 none 1 20 "id_desc" (Or.inl rfl)⟩

/-- `post_common` issues exactly one request. -/
theorem trace_post_common (ctx : Ctx) (http : Http) (ep : String)
    (ps : List (String × String)) :
    (post_common ctx http ep ps).1.trace =
      http.trace ++ [build_url ctx.baseUrl ep ps] := by
  unfold post_common
  have h := trace_make_request ctx http (build_url ctx.baseUrl ep ps)
  rcases hm : make_request ctx http (build_url ctx.baseUrl ep ps) with ⟨h1, r⟩
  rw [hm] at h
  cases r <;> simpa using h

/-- C8, counterexample.  The capability table marks `task.start` as
unverified, yet calling `start_task` (Scenario D, no opt-in parameter even
exists) issues the POST — one network request, not zero — and returns
`ok true`; no `CapabilityError` is raised, and no code path consults the
table. -/
theorem C8_capability_guard_refuted :
    endpoint_verified "task.start" = some false ∧
    start_task ctxD (some "sid4567890123") http0 "42" =
      ({ trace := [urlStart42], cookies := [] }, Except.ok true) :=
  ⟨rfl, rfl⟩

/-- C8, amended.  The registry's capability table exists and marks the
mutate action `task.start` unverified, but no call path consults it:
`start_task` under any authenticated session issues exactly one network
request regardless, never raises (exceptions are swallowed), and returns a
bare boolean. -/
theorem C8_unverified_mutate_not_guarded :
    endpoint_verified "task.start" = some false ∧
    ∀ (ctx : Ctx) (http : Http) (s tid : String), s ≠ "" →
      (start_task ctx (some s) http tid).1.trace.length =
        http.trace.length + 1 ∧
      ∃ b, (start_task ctx (some s) http tid).2 = Except.ok b := by
  refine ⟨rfl, ?_⟩
  intro ctx http s tid hs
  have h := trace_post_common ctx http
    "task-start-\x7btask_id\x7d-\x7bsessionid\x7d.json"
    [("task_id", tid), ("sessionid", s)]
  unfold start_task
  rcases hp : post_common ctx http
      "task-start-\x7btask_id\x7d-\x7bsessionid\x7d.json"
      [("task_id", tid), ("sessionid", s)] with ⟨h1, r⟩
  rw [hp] at h
  simp only at h
  cases r with
  | error e =>
    refine ⟨?_, false, ?_⟩ <;> simp [hs, hp, h]
  | ok resp =>
    refine ⟨?_, true, ?_⟩ <;> simp [hs, hp, h]

/-- C8 witness: the guarded-call conclusions at Scenario D. -/
theorem C8_unverified_mutate_not_guarded_witness :
    "sid4567890123" ≠ "" ∧
    ((start_task ctxD (some "sid4567890123") http0 "42").1.trace.length =
        http0.trace.length + 1 ∧
      ∃ b, (start_task ctxD (some "sid4567890123") http0 "42").2 =
        Except.ok b) :=
  ⟨by decide,
    C8_unverified_mutate_not_guarded.2 ctxD http0 "sid4567890123" "42"
      (by decide)⟩

end ZenTao
